import Mathlib

/-!
Shallow embedding, in Lean 4, of the corrective-retrieval (CRAG) orchestration
pipeline of the AgenticBusinessLawResearcher repository, together with theorems
about its behaviour.

Conventions of the embedding:
* Python strings are Lean `String`s; `str.split('.')`, `str.split()`,
  `str.strip()`, `str.lower()`, `s[:n]`, `sep in s` are modelled by
  corresponding executable functions below, faithful to CPython semantics on
  the inputs that occur (decimal `float()` literals are modelled as exact
  rationals; exponent, infinity and NaN spellings are outside the model).
* Pydantic model construction, which can raise a ValidationError, is modelled
  as a function into `Except String _`; field constraints (required fields,
  `min_length`, `ge`/`le`) and the `@validator` hooks are checked in the same
  order pydantic v2 applies them (field constraints first, then the v1-style
  validator).  Identifier, timestamp and other fields that no validator and no
  claim inspects (`response_id`, `generated_at`, ...) are not carried.
* An LLM agent call is an oracle: either an output string or a raised
  exception, i.e. a value of `Except String String` (or, for the multi-call
  synthesizer, a map from call index to output string).  Nothing is assumed
  about the oracle.
* Python floats that the code only ever compares or stores (scores in [0,1])
  are modelled as `Rat`; the comparison `len(unique)/len(words) < 0.25` on
  ints is modelled exactly by `4 * unique < total` (for list lengths far below
  2^53 the single float division cannot cross the representable bound 0.25).
-/

set_option maxRecDepth 100000

namespace Researcher

/-! ## Python string primitives

All primitives are implemented by structural recursion over `String.data`
(core `String.trim`, `String.splitOn` and friends recurse on byte positions,
which blocks kernel evaluation).  Case mapping is the ASCII one of
`Char.toLower`/`Char.toUpper`; the code only ever case-folds around ASCII
keywords (`SIM`, `irrelevant`, `BAIXO`, ...), where this agrees with CPython. -/

/-- Model of Python `pat in s` on lists of characters (prefix test). -/
def startsWithList : List Char → List Char → Bool
  | [], _ => true
  | _ :: _, [] => false
  | p :: ps, c :: cs => p = c && startsWithList ps cs

/-- Model of the Python containment test `pat in s` (always true for `pat = ""`). -/
def containsList (pat : List Char) : List Char → Bool
  | [] => startsWithList pat []
  | c :: cs => startsWithList pat (c :: cs) || containsList pat cs

/-- Containment test on strings, `pat in s` in Python. -/
def strContains (s pat : String) : Bool :=
  containsList pat.data s.data

/-- Prefix test on strings, `s.startswith(pat)` in Python. -/
def pyStartsWith (s pat : String) : Bool :=
  startsWithList pat.data s.data

/-- Whitespace trimming of a character list, both ends. -/
def trimChars (cs : List Char) : List Char :=
  ((cs.dropWhile Char.isWhitespace).reverse.dropWhile Char.isWhitespace).reverse

/-- Model of Python `s.strip()`. -/
def pyStrip (s : String) : String :=
  String.mk (trimChars s.data)

/-- Model of Python `s.lower()` (ASCII case mapping). -/
def pyLower (s : String) : String :=
  String.mk (s.data.map Char.toLower)

/-- Model of Python `s.upper()` (ASCII case mapping). -/
def pyUpper (s : String) : String :=
  String.mk (s.data.map Char.toUpper)

/-- Model of Python slicing `s[:n]`. -/
def pyTake (n : Nat) (s : String) : String :=
  String.mk (s.data.take n)

/-- Model of Python slicing `s[n:]`. -/
def pyDrop (n : Nat) (s : String) : String :=
  String.mk (s.data.drop n)

/-- Model of Python `len(s)` (a count of code points, as in CPython). -/
def pyLen (s : String) : Nat :=
  s.data.length

/-- Split of a character list at every character satisfying the predicate,
keeping empty pieces (the semantics of Python `str.split(sep)` for a
one-character separator). -/
def splitPred (p : Char → Bool) : List Char → List (List Char)
  | [] => [[]]
  | c :: cs =>
      let r := splitPred p cs
      if p c then [] :: r
      else
        match r with
        | [] => [[c]]
        | h :: t => (c :: h) :: t

/-- Model of Python `s.split(sep)` for a one-character separator. -/
def pySplitChar (sep : Char) (s : String) : List String :=
  (splitPred (fun c => c = sep) s.data).map String.mk

/-- Model of Python `sep.join(xs)`. -/
def pyIntercalate (sep : String) (xs : List String) : String :=
  String.mk (((xs.map String.data).intersperse sep.data).flatten)

/-- Model of Python `v.split('.')` (keeps empty pieces, like CPython). -/
def splitDots (v : String) : List String :=
  pySplitChar '.' v

/-- Model of Python `v.split()` with no argument: split on whitespace runs,
dropping empty pieces. -/
def pyWords (v : String) : List String :=
  ((splitPred Char.isWhitespace v.data).map String.mk).filter (fun w => w ≠ "")

/-- Word count of a string, `len(v.split())` in Python. -/
def wordCount (v : String) : Nat :=
  (pyWords v).length

/-- Model of Python `str.split('\n')` used for iterating over labelled lines. -/
def pyLines (s : String) : List String :=
  pySplitChar '\n' s

/-- Numeric value of a digit run (the run is known to contain digits only). -/
def digitsToNat (cs : List Char) : Nat :=
  cs.foldl (fun a c => 10 * a + (c.toNat - 48)) 0

/-- Model of Python `float(s)` restricted to plain decimal literals
(optional sign, digits, optional fractional part); any other input is a
raised ValueError, modelled as `none`. -/
def pyFloatQ (s : String) : Option Rat :=
  let cs := s.data
  let signSplit : Bool × List Char :=
    match cs with
    | '-' :: r => (true, r)
    | '+' :: r => (false, r)
    | r => (false, r)
  let neg := signSplit.1
  let body := signSplit.2
  let intPart := body.takeWhile Char.isDigit
  let rest := body.dropWhile Char.isDigit
  let finish : Rat → Option Rat := fun q => some (if neg then -q else q)
  match rest with
  | [] => if intPart.isEmpty then none else finish (digitsToNat intPart)
  | '.' :: fracPart =>
      if fracPart.all Char.isDigit && (!intPart.isEmpty || !fracPart.isEmpty) then
        finish ((digitsToNat intPart : Rat) +
          Rat.divInt (digitsToNat fracPart) ((10 ^ fracPart.length : Nat) : Int))
      else none
  | _ :: _ => none

/-- Field accessed as `line.split(':')[1]` in Python: the second piece of the
colon split, when it exists. -/
def colonField (line : String) : Option String :=
  (pySplitChar ':' line).get? 1

/-- Tail accessed as `line.split(':', 1)[1]` in Python: everything after the
first colon, when a colon exists. -/
def colonTail (line : String) : Option String :=
  match pySplitChar ':' line with
  | [] => none
  | [_] => none
  | _ :: rest => some (pyIntercalate ":" rest)

/-! ## legal_models.py: Status, FinalResponse and its construction-time validation -/

/-- Enum `Status` of `src/core/legal_models.py`. -/
inductive Status where
  | pending
  | processing
  | reviewing
  | completed
  | failed
  | cancelled
deriving DecidableEq, Repr

/-- Validator `FinalResponse.validate_summary_quality` of
`src/core/legal_models.py` (lines 330-351): at least 2 non-blank sentence
pieces when splitting on a period, stripped length at least 50, and, when the
text has at least 10 words, a unique-word ratio of at least 0.25. -/
def validate_summary_quality (v : String) : Except String String :=
  if (((splitDots v).map pyStrip).filter (fun s => s ≠ "")).length < 2 then
    Except.error "Resposta deve conter pelo menos 2 frases completas"
  else if pyLen (pyStrip v) < 50 then
    Except.error "Resposta muito curta - mínimo 50 caracteres"
  else if (pyWords (pyLower v)).length < 10 then Except.ok v
  else if 4 * (pyWords (pyLower v)).dedup.length < (pyWords (pyLower v)).length then
    Except.error "Resposta muito repetitiva"
  else Except.ok v

/-- Default legal disclaimer of `FinalResponse.disclaimer`. -/
def defaultDisclaimer : String :=
  "Esta informação é gerada por IA e não substitui assessoria jurídica profissional. Busque sempre orientação de advogado especializado para sua situação específica."

/-- Model `FinalResponse` of `src/core/legal_models.py` (lines 279-351),
restricted to the fields the pipeline and the validators inspect. -/
structure FinalResponse where
  query_id : String
  overall_summary : String
  overall_confidence : Rat
  completeness_score : Rat
  warnings : List String
  disclaimer : String
  status : Status
deriving DecidableEq, Repr

/-- Construction of a `FinalResponse`, modelling pydantic validation: the
required field `query_id` must be supplied, `overall_summary` must satisfy its
length bounds (100..15000) and then `validate_summary_quality`, and the two
scores must lie in [0,1].  A raised ValidationError is `Except.error`. -/
def mkFinalResponse (query_id : Option String) (overall_summary : String)
    (status : Status) (overall_confidence : Rat) (completeness_score : Rat)
    (warnings : List String) (disclaimer : String) : Except String FinalResponse :=
  match query_id with
  | none => Except.error "query_id: Field required"
  | some qid =>
      if pyLen overall_summary < 100 then
        Except.error "overall_summary: String should have at least 100 characters"
      else if 15000 < pyLen overall_summary then
        Except.error "overall_summary: String should have at most 15000 characters"
      else if overall_confidence < 0 ∨ 1 < overall_confidence then
        Except.error "overall_confidence: range"
      else if completeness_score < 0 ∨ 1 < completeness_score then
        Except.error "completeness_score: range"
      else
        match validate_summary_quality overall_summary with
        | Except.error e => Except.error e
        | Except.ok v =>
            Except.ok
              { query_id := qid
                overall_summary := v
                overall_confidence := overall_confidence
                completeness_score := completeness_score
                warnings := warnings
                disclaimer := disclaimer
                status := status }

/-- Model `RetryableError` of `src/core/legal_models.py` (lines 74-87).  The
pydantic model is frozen (`ConfigDict(frozen=True)`); in the embedding a value
is immutable by construction, so the fields of a given value never change. -/
structure RetryableError where
  error_type : String
  message : String
  retry_count : Nat
  max_retries : Nat
  backoff_factor : Rat
deriving DecidableEq, Repr

/-- Derived property `RetryableError.can_retry`. -/
def RetryableError.can_retry (e : RetryableError) : Bool :=
  e.retry_count < e.max_retries

/-! ## workflow_builder.py: node names, the error handler, and the routers -/

/-- Node name constant of `src/core/workflow_builder.py`. -/
def NODE_RETRIEVE : String := "retrieve_documents"

/-- Node name constant of `src/core/workflow_builder.py`. -/
def NODE_GRADE : String := "grade_documents"

/-- Node name constant of `src/core/workflow_builder.py`. -/
def NODE_TRANSFORM : String := "transform_query"

/-- Node name constant of `src/core/workflow_builder.py` (jurisprudence search). -/
def NODE_LEXML : String := "lexml_search"

/-- Node name constant of `src/core/workflow_builder.py`. -/
def NODE_EVALUATE : String := "evaluate_search_necessity"

/-- Node name constant of `src/core/workflow_builder.py`. -/
def NODE_WEB_SEARCH : String := "conditional_web_search"

/-- Node name constant of `src/core/workflow_builder.py`. -/
def NODE_SYNTHESIZE : String := "synthesize_response"

/-- Node name constant of `src/core/workflow_builder.py`. -/
def NODE_ERROR : String := "error_handler"

/-- Node `handle_error` of `src/core/workflow_builder.py` (lines 31-43): it
reads `state.get('error', 'Unknown error')` and constructs
`FinalResponse(overall_summary=f"Desculpe, ocorreu um erro: {error_message}", retrieved_documents=[], detailed_analysis=[])`.
The keyword arguments `retrieved_documents` and `detailed_analysis` are not
fields of `FinalResponse` and are ignored by pydantic; no `query_id` is passed,
and all other fields keep their defaults.  The result models the partial update
`{"final_response": ...}`, or the exception that construction raises. -/
def handle_error (error_message : String) : Except String FinalResponse :=
  mkFinalResponse none ("Desculpe, ocorreu um erro: " ++ error_message)
    Status.completed 0 0 [] defaultDisclaimer

/-- Router `route_after_grading` of `src/core/workflow_builder.py`
(lines 46-62).  The value `state.get("grade")` is an optional string; `none`
models an absent grade. -/
def route_after_grading (grade : Option String) : String :=
  if grade = some "relevant" then NODE_LEXML
  else if grade = some "irrelevant" then NODE_TRANSFORM
  else NODE_LEXML

/-- Router `route_after_transform` of `src/core/workflow_builder.py`
(lines 64-69): it ignores the state and always returns the LexML node. -/
def route_after_transform : String :=
  NODE_LEXML

/-- Conditional edge table that `build_graph` registers after the grading node
(`src/core/workflow_builder.py`, lines 104-111): the router output is mapped
to the next node through this dictionary. -/
def grade_conditional_edges (target : String) : Option String :=
  if target = NODE_LEXML then some NODE_LEXML
  else if target = NODE_TRANSFORM then some NODE_TRANSFORM
  else none

/-- Conditional edge table that `build_graph` registers after the transform
node (`src/core/workflow_builder.py`, lines 113-118). -/
def transform_conditional_edges (target : String) : Option String :=
  if target = NODE_LEXML then some NODE_LEXML
  else none

/-! ## document_grader.py: the grader node and its response parsing -/

/-- Metadata slice of a `DocumentSnippet` that `format_docs_for_grading`
inspects: the optional issuing authority. -/
structure GradeDocMetadata where
  authority : Option String
deriving DecidableEq, Repr

/-- Slice of `DocumentSnippet` (of `src/core/legal_models.py`) that the grader
node reads: `source_id`, `metadata.authority` and `text`. -/
structure GradeDoc where
  source_id : String
  metadata : GradeDocMetadata
  text : String
deriving DecidableEq, Repr

/-- Helper `format_docs_for_grading` of `src/agents/document_grader.py`
(lines 57-73): the snippet source is `metadata.authority or source_id`
(Python `or`: the authority is used when it is present and non-empty), and the
text preview is the first 500 characters. -/
def format_docs_for_grading (docs : List GradeDoc) : String :=
  if docs.isEmpty then "Nenhum documento recuperado."
  else
    pyIntercalate "\n---\n"
      (docs.enum.map (fun p =>
        let source :=
          match p.2.metadata.authority with
          | some a => if a ≠ "" then a else p.2.source_id
          | none => p.2.source_id
        "Documento " ++ toString (p.1 + 1) ++ " (Fonte: " ++ source ++ "):\n" ++
          pyTake 500 p.2.text ++ "..."))

/-- Case-insensitive prefix match, modelling `re.IGNORECASE` matching of a
literal (the pattern is given in lower case). -/
def startsWithListCI : List Char → List Char → Bool
  | [], _ => true
  | _ :: _, [] => false
  | p :: ps, c :: cs => p = c.toLower && startsWithListCI ps cs

/-- Attempted match of the regex `RELEVANCIA:\s*(relevant|irrelevant|needs_web_search)`
(with `re.IGNORECASE`) at the head of a character list: the literal label, a
maximal run of whitespace, then the three alternatives in source order.  The
returned grade is already lower-cased, as `group(1).lower()` produces. -/
def graderLabelAt (cs : List Char) : Option String :=
  if startsWithListCI "relevancia:".data cs then
    let rest := (cs.drop 11).dropWhile Char.isWhitespace
    if startsWithListCI "relevant".data rest then some "relevant"
    else if startsWithListCI "irrelevant".data rest then some "irrelevant"
    else if startsWithListCI "needs_web_search".data rest then some "needs_web_search"
    else none
  else none

/-- Model of `re.search` for the grader pattern: the match attempt is made at
every start position, left to right. -/
def graderLabelSearch : List Char → Option String
  | [] => none
  | c :: cs =>
      match graderLabelAt (c :: cs) with
      | some g => some g
      | none => graderLabelSearch cs

/-- Inner function `parse_grader_response` of
`src/agents/document_grader.py` (lines 108-130): first the labelled-line regex,
then keyword fallbacks on the lower-cased text, and `relevant` as the
conservative default. -/
def parse_grader_response (text : String) : String :=
  match graderLabelSearch text.data with
  | some grade => grade
  | none =>
      let textLower := pyLower text
      if strContains textLower "irrelevant" then "irrelevant"
      else if strContains textLower "needs_web_search" then "needs_web_search"
      else "relevant"

/-- Prompt that `grade_documents` sends to the grader agent. -/
def graderAgentInput (queryText : String) (docs : List GradeDoc) : String :=
  "Pergunta do Usuário: " ++ queryText ++ "\n\n" ++
    "Documentos Recuperados:\n" ++ format_docs_for_grading docs ++ "\n\n" ++
    "Avalie a relevância destes documentos para a pergunta e responda no formato JSON solicitado."

/-- Node `grade_documents` of `src/agents/document_grader.py` (lines 75-141).
The module-level `grader_agent` is `none` when agent construction failed at
module load time; otherwise it is an oracle from the prompt to the agent output (or
a raised exception).  `query` is the optional query text (`state.get("query")`
with a pydantic `LegalQuery` is truthy exactly when present) and
`retrieved_docs` is `state.get("retrieved_docs")` (absent, or a possibly empty
list).  The result is the returned grade together with a flag recording
whether the LLM agent was invoked. -/
def grade_documents (grader_agent : Option (String → Except String String))
    (query : Option String) (retrieved_docs : Option (List GradeDoc)) :
    String × Bool :=
  match grader_agent with
  | none => ("relevant", false)
  | some run =>
      if query = none ∨ retrieved_docs = none ∨ retrieved_docs = some [] then
        ("irrelevant", false)
      else
        let queryText := query.getD ""
        let docs := retrieved_docs.getD []
        match run (graderAgentInput queryText docs) with
        | Except.ok output => (parse_grader_response output, true)
        | Except.error _ => ("relevant", true)

/-! ## hybrid_legal_processor.py: structured outputs of the hybrid pipeline -/

/-- Model `QualityAssessment` of
`src/agents/streaming/hybrid_legal_processor.py` (lines 167-179).  The same
record doubles as the parse accumulator of `validate_with_openrouter`, whose
per-field defaults are the initial values. -/
structure QualityAssessment where
  overall_score : Rat
  completeness : Rat
  accuracy : Rat
  clarity : Rat
  needs_improvement : Bool
  improvement_suggestions : List String
  needs_human_review : Bool
  review_reason : String
deriving DecidableEq, Repr

/-- Model `GuardrailCheck` of
`src/agents/streaming/hybrid_legal_processor.py` (lines 182-187). -/
structure GuardrailCheck where
  passed : Bool
  violations : List String
  overall_risk_level : String
deriving DecidableEq, Repr

/-- Model `GroqSearchResult` of
`src/agents/streaming/hybrid_legal_processor.py` (lines 158-164).  In every
construction site the `web_results` and `lexml_results` dicts hold exactly one
key, `summary`; the model carries that value. -/
structure GroqSearchResult where
  web_results_summary : String
  lexml_results_summary : String
  total_sources : Nat
  summary : String
deriving DecidableEq, Repr

/-! ## hybrid_legal_processor.py: the time-boxed Groq search step -/

/-- Outcome of the awaited `groq_search_agent.run` call inside
`asyncio.wait_for`: a produced output string, an expired timeout
(`asyncio.TimeoutError`), or any other raised exception. -/
inductive GroqCallOutcome where
  | ok (text : String)
  | timeout
  | failure (msg : String)
deriving DecidableEq, Repr

/-- Hard timeout, in seconds, that `execute_groq_searches` passes to
`asyncio.wait_for` (`src/agents/streaming/hybrid_legal_processor.py`,
line 553: `timeout=10.0`). -/
def groqSearchTimeoutSeconds : Rat := 10

/-- Inner function `parse_groq_response` of `execute_groq_searches`
(lines 560-583): fixed summaries, a default source count of 20, and the first
500 characters of the agent text (or a default when the text is empty).  No
field of `GroqSearchResult` is constrained, so the guarded construction cannot
raise and the inner except branch is unreachable. -/
def parse_groq_response (text : String) : GroqSearchResult :=
  { web_results_summary := "Busca web executada"
    lexml_results_summary := "Busca LexML executada"
    total_sources := 20
    summary := if text ≠ "" then pyTake 500 text else "Buscas Groq executadas" }

/-- Function `execute_groq_searches` of
`src/agents/streaming/hybrid_legal_processor.py` (lines 533-611), as a function
of the outcome of the time-boxed agent call: parse on success, a placeholder
result on timeout, and a default result on any other exception. -/
def execute_groq_searches : GroqCallOutcome → GroqSearchResult
  | GroqCallOutcome.ok text => parse_groq_response text
  | GroqCallOutcome.timeout =>
      { web_results_summary := "Timeout na busca web"
        lexml_results_summary := "Timeout na busca LexML"
        total_sources := 10
        summary := "Buscas Groq com timeout - usando fallback" }
  | GroqCallOutcome.failure _ =>
      { web_results_summary := "Erro na busca web"
        lexml_results_summary := "Erro na busca LexML"
        total_sources := 0
        summary := "Erro nas buscas Groq" }

/-! ## hybrid_legal_processor.py: quality validation -/

/-- Score value extracted from a labelled line,
`float(line.split(':')[1].strip())` in Python; `none` models the caught
ValueError or IndexError. -/
def parsedScore (line : String) : Option Rat :=
  (colonField line).bind (fun f => pyFloatQ (pyStrip f))

/-- Per-field defaults that `validate_with_openrouter` sets before parsing
(lines 1112-1119). -/
def qaSuccessDefaults : QualityAssessment :=
  { overall_score := Rat.divInt 4 5
    completeness := Rat.divInt 4 5
    accuracy := Rat.divInt 4 5
    clarity := Rat.divInt 4 5
    needs_improvement := false
    improvement_suggestions := []
    needs_human_review := false
    review_reason := "Avaliação automática concluída" }

/-- One step of the labelled-line scan of `validate_with_openrouter`
(lines 1122-1151), an exact transcription of the if/elif chain. -/
def qaLineStep (st : QualityAssessment) (line : String) : QualityAssessment :=
  if strContains line "SCORE_GERAL:" then
    match parsedScore line with
    | some v => { st with overall_score := v }
    | none => st
  else if strContains line "COMPLETUDE:" then
    match parsedScore line with
    | some v => { st with completeness := v }
    | none => st
  else if strContains line "PRECISAO:" then
    match parsedScore line with
    | some v => { st with accuracy := v }
    | none => st
  else if strContains line "CLAREZA:" then
    match parsedScore line with
    | some v => { st with clarity := v }
    | none => st
  else if strContains line "PRECISA_MELHORIA:" then
    { st with needs_improvement := strContains (pyUpper line) "SIM" }
  else if strContains line "PRECISA_REVISAO_HUMANA:" then
    { st with needs_human_review := strContains (pyUpper line) "SIM" }
  else if strContains line "MOTIVO_REVISAO:" then
    match colonTail line with
    | some t => { st with review_reason := pyStrip t }
    | none => st
  else if pyStartsWith (pyStrip line) "- " then
    { st with improvement_suggestions := st.improvement_suggestions ++ [pyDrop 2 (pyStrip line)] }
  else st

/-- Labelled-line parse of the quality validator output. -/
def qaParse (text : String) : QualityAssessment :=
  (pyLines text).foldl qaLineStep qaSuccessDefaults

/-- Range constraints (`ge=0, le=1`) that pydantic checks when the
`QualityAssessment` is constructed from the parsed fields. -/
def qaScoresInRange (st : QualityAssessment) : Bool :=
  decide (0 ≤ st.overall_score ∧ st.overall_score ≤ 1 ∧
    0 ≤ st.completeness ∧ st.completeness ≤ 1 ∧
    0 ≤ st.accuracy ∧ st.accuracy ≤ 1 ∧
    0 ≤ st.clarity ∧ st.clarity ≤ 1)

/-- Assessment that the except branch of `validate_with_openrouter` returns
(lines 1169-1182): overall 0.75, no improvement flags. -/
def qaErrorDefault : QualityAssessment :=
  { overall_score := Rat.divInt 3 4
    completeness := Rat.divInt 4 5
    accuracy := Rat.divInt 4 5
    clarity := Rat.divInt 7 10
    needs_improvement := false
    improvement_suggestions := ["Validação automática falhou - revisão recomendada"]
    needs_human_review := false
    review_reason := "Erro no sistema de validação" }

/-- Function `validate_with_openrouter` of
`src/agents/streaming/hybrid_legal_processor.py` (lines 1081-1182), as a
function of the outcome of the validator agent call.  A raised call, or a
parsed score outside [0,1] (which makes the pydantic construction inside the
try block raise), lands in the except branch. -/
def validate_with_openrouter : Except String String → QualityAssessment
  | Except.error _ => qaErrorDefault
  | Except.ok text =>
      let st := qaParse text
      if qaScoresInRange st then st else qaErrorDefault

/-! ## hybrid_legal_processor.py: guardrail checking -/

/-- One step of the labelled-line scan of `check_guardrails_with_openrouter`
(lines 1222-1229).  The accumulator keeps the risk level before the final
lower-casing. -/
def guardLineStep (st : GuardrailCheck) (line : String) : GuardrailCheck :=
  if strContains line "PASSOU_VERIFICACAO:" then
    { st with passed := strContains (pyUpper line) "SIM" }
  else if strContains line "NIVEL_RISCO:" then
    match colonField line with
    | some f => { st with overall_risk_level := pyUpper (pyStrip f) }
    | none => st
  else if pyStartsWith (pyStrip line) "- " then
    { st with violations := st.violations ++ [pyDrop 2 (pyStrip line)] }
  else st

/-- Function `check_guardrails_with_openrouter` of
`src/agents/streaming/hybrid_legal_processor.py` (lines 1185-1250): parse with
defaults `passed=True`, risk `BAIXO`, no violations, lower-casing the risk at
construction; on a raised call, pass with a recorded warning. -/
def check_guardrails_with_openrouter : Except String String → GuardrailCheck
  | Except.error msg =>
      { passed := true
        violations := ["Sistema de guardrails falhou: " ++ msg]
        overall_risk_level := "medium" }
  | Except.ok text =>
      let st := (pyLines text).foldl guardLineStep
        { passed := true, violations := [], overall_risk_level := "BAIXO" }
      { st with overall_risk_level := pyLower st.overall_risk_level }

/-! ## hybrid_legal_processor.py: the four-part synthesis with bounded expansion -/

/-- Context string used by every synthesis prompt:
`analysis_text if analysis_text and len(analysis_text) > 50 else "Conhecimento jurídico geral"`. -/
def ctxOrGeneral (analysis_text : String) : String :=
  if analysis_text ≠ "" ∧ 50 < pyLen analysis_text then analysis_text
  else "Conhecimento jurídico geral"

/-- Record of one generated section: the adopted text, the first draft (the
stripped output of the first call), whether the expansion call was issued, the
index of the next free call slot, and the prompts issued for this section. -/
structure SectionRun where
  text : String
  firstDraft : String
  expanded : Bool
  nextCall : Nat
  prompts : List String
deriving DecidableEq, Repr

/-- Generation of one synthesis section, the step that
`synthesize_with_openrouter_4_parts` (and its streaming variant) performs for
each of the four sections: one agent call, a word-count check against the
floor, and — only when the draft is short — exactly one further expansion
call whose stripped output replaces the draft unconditionally.  The oracle
`llm` maps the call index to the agent output. -/
def sectionStep (llm : Nat → String) (k : Nat) (prompt : String)
    (expandPrompt : String → String) (floor : Nat) : SectionRun :=
  if wordCount (pyStrip (llm k)) < floor then
    { text := pyStrip (llm (k + 1))
      firstDraft := pyStrip (llm k)
      expanded := true
      nextCall := k + 2
      prompts := [prompt, expandPrompt (pyStrip (llm k))] }
  else
    { text := pyStrip (llm k)
      firstDraft := pyStrip (llm k)
      expanded := false
      nextCall := k + 1
      prompts := [prompt] }

/-- Introduction prompt of `synthesize_with_openrouter_4_parts` (lines
675-689; the f-string text, with its indentation normalized away). -/
def introPrompt (query ctx : String) : String :=
  "TAREFA: Escreva uma INTRODUÇÃO detalhada e abrangente sobre: " ++ query ++
  "\n\nCONTEXTO DISPONÍVEL: " ++ ctx ++
  "\n\nINSTRUÇÕES ESPECÍFICAS:\n- Escreva uma introdução de EXATAMENTE 200-300 palavras (mínimo obrigatório)\n- Apresente o tema de forma clara, didática e DETALHADA\n- Contextualize profundamente a importância do assunto no direito brasileiro\n- Mencione detalhadamente os aspectos que serão abordados\n- Use linguagem acessível mas técnica e COMPLETA\n- SEJA EXTENSO e ABRANGENTE na apresentação do tema\n\nFORMATO: Escreva apenas a introdução, sem títulos ou seções."

/-- Leading text of the introduction expansion prompt (lines 698-704). -/
def introExpandPre : String :=
  "Expanda esta introdução para ter pelo menos 200 palavras, mantendo o conteúdo original:\n\n"

/-- Trailing text of the introduction expansion prompt. -/
def introExpandPost : String :=
  "\n\nAdicione mais detalhes sobre contexto jurídico, importância do tema, e aspectos que serão abordados."

/-- Expansion prompt of the introduction: the short section is interpolated
verbatim between the fixed leading and trailing text. -/
def introExpandPrompt (sec : String) : String :=
  introExpandPre ++ sec ++ introExpandPost

/-- Development prompt of `synthesize_with_openrouter_4_parts` (lines 710-725). -/
def devPrompt (query ctx : String) : String :=
  "TAREFA: Escreva o DESENVOLVIMENTO detalhado sobre: " ++ query ++
  "\n\nCONTEXTO: " ++ ctx ++
  "\n\nINSTRUÇÕES ESPECÍFICAS:\n- Desenvolva adequadamente o tema (aproximadamente 400-500 palavras)\n- Explique MUITO detalhadamente os conceitos fundamentais\n- Aborde extensivamente a fundamentação legal e doutrinária\n- Inclua MÚLTIPLOS exemplos práticos e aplicações\n- Mencione TODOS os aspectos e classificações relevantes\n- Cite VÁRIAS leis e normas aplicáveis com detalhes\n- SEJA EXTREMAMENTE DETALHADO e DIDÁTICO\n\nFORMATO: Escreva apenas o desenvolvimento, sem títulos. Seja muito detalhado."

/-- Leading text of the development expansion prompt (lines 734-740). -/
def devExpandPre : String :=
  "Expanda este desenvolvimento para ter pelo menos 400 palavras, mantendo o conteúdo original:\n\n"

/-- Trailing text of the development expansion prompt. -/
def devExpandPost : String :=
  "\n\nAdicione mais exemplos práticos, detalhes da legislação, classificações e aspectos técnicos."

/-- Expansion prompt of the development section. -/
def devExpandPrompt (sec : String) : String :=
  devExpandPre ++ sec ++ devExpandPost

/-- Detailed-analysis prompt of `synthesize_with_openrouter_4_parts`
(lines 746-764). -/
def analysisPrompt (query ctx : String) : String :=
  "TAREFA: Escreva uma ANÁLISE DETALHADA sobre: " ++ query ++
  "\n\nCONTEXTO: " ++ ctx ++
  "\n\nINSTRUÇÕES ESPECÍFICAS:\n- Analise profundamente o tema (aproximadamente 400-500 palavras)\n- Analise EXTENSIVAMENTE aspectos práticos e teóricos\n- Discuta DETALHADAMENTE implicações e consequências\n- Aborde MÚLTIPLAS perspectivas doutrinárias\n- Mencione VÁRIAS jurisprudências relevantes com detalhes\n- Analise TODOS os casos especiais e exceções\n- Discuta amplamente tendências e evolução do tema\n- SEJA PROFUNDO, CRÍTICO e ANALÍTICO\n\nFORMATO: Escreva apenas a análise, sem títulos. Seja analítico e crítico.\n\nDesenvolva uma análise abrangente e detalhada que explore adequadamente todos os aspectos relevantes."

/-- Leading text of the analysis expansion prompt (lines 773-779). -/
def analysisExpandPre : String :=
  "Expanda esta análise para ter pelo menos 400 palavras, mantendo o conteúdo original:\n\n"

/-- Trailing text of the analysis expansion prompt. -/
def analysisExpandPost : String :=
  "\n\nAdicione mais perspectivas doutrinárias, jurisprudência, casos especiais, tendências e análises críticas."

/-- Expansion prompt of the detailed-analysis section. -/
def analysisExpandPrompt (sec : String) : String :=
  analysisExpandPre ++ sec ++ analysisExpandPost

/-- Conclusion prompt of `synthesize_with_openrouter_4_parts` (lines 785-802). -/
def conclusionPrompt (query ctx : String) : String :=
  "TAREFA: Escreva uma CONCLUSÃO abrangente sobre: " ++ query ++
  "\n\nCONTEXTO: " ++ ctx ++
  "\n\nINSTRUÇÕES ESPECÍFICAS:\n- Escreva EXATAMENTE 250-300 palavras de conclusão (mínimo obrigatório)\n- Sintetize DETALHADAMENTE os pontos principais abordados\n- Reforce extensivamente a importância do tema\n- Forneça MÚLTIPLAS orientações práticas finais\n- Sugira VÁRIOS próximos passos ou recomendações\n- Termine com uma reflexão PROFUNDA sobre o tema\n- SEJA CONCLUSIVO, PRÁTICO e ORIENTATIVO\n\nFORMATO: Escreva apenas a conclusão, sem títulos. Seja conclusivo e orientativo.\n\nConclua de forma abrangente e consolidada, sintetizando os principais pontos discutidos."

/-- Leading text of the conclusion expansion prompt (lines 811-817). -/
def conclusionExpandPre : String :=
  "Expanda esta conclusão para ter pelo menos 250 palavras, mantendo o conteúdo original:\n\n"

/-- Trailing text of the conclusion expansion prompt. -/
def conclusionExpandPost : String :=
  "\n\nAdicione mais orientações práticas, próximos passos, recomendações e reflexões finais."

/-- Expansion prompt of the conclusion section. -/
def conclusionExpandPrompt (sec : String) : String :=
  conclusionExpandPre ++ sec ++ conclusionExpandPost

/-- Result of the four-part synthesis: the four section runs and the combined
final text. -/
structure FourPartsRun where
  introduction : SectionRun
  development : SectionRun
  analysis : SectionRun
  conclusion : SectionRun
  final_text : String
deriving DecidableEq, Repr

/-- Function `synthesize_with_openrouter_4_parts` of
`src/agents/streaming/hybrid_legal_processor.py` (lines 663-856, success
path): four sections generated in order with word-count floors 200, 400, 400
and 250, each expanded at most once, then combined under fixed headers.  The
oracle `llm` maps the call index (in issue order) to the agent output. -/
def synthesize_with_openrouter_4_parts (llm : Nat → String)
    (query analysis_text : String) : FourPartsRun :=
  let ctx := ctxOrGeneral analysis_text
  let i := sectionStep llm 0 (introPrompt query ctx) introExpandPrompt 200
  let d := sectionStep llm i.nextCall (devPrompt query ctx) devExpandPrompt 400
  let a := sectionStep llm d.nextCall (analysisPrompt query ctx) analysisExpandPrompt 400
  let c := sectionStep llm a.nextCall (conclusionPrompt query ctx) conclusionExpandPrompt 250
  { introduction := i
    development := d
    analysis := a
    conclusion := c
    final_text :=
      "## INTRODUÇÃO\n\n" ++ i.text ++ "\n\n## DESENVOLVIMENTO\n\n" ++ d.text ++
      "\n\n## ANÁLISE DETALHADA\n\n" ++ a.text ++ "\n\n## CONCLUSÃO\n\n" ++ c.text }

/-- Streaming variant `synthesize_with_openrouter_streaming` of
`src/agents/streaming/hybrid_legal_processor.py` (lines 928-1078): the same
one-rewrite-per-short-section step with floors 150, 250, 300 and 200 and
single-line rewrite prompts, emitting the four header-prefixed chunks in
order. -/
def synthesize_with_openrouter_streaming (llm : Nat → String)
    (query analysis_text : String) : FourPartsRun × List String :=
  let ctx := ctxOrGeneral analysis_text
  let i := sectionStep llm 0
    ("Escreva uma INTRODUÇÃO sobre: " ++ query ++ "\n\nCONTEXTO: " ++ ctx ++
     "\n\nINSTRUÇÕES:\n- Escreva 200-250 palavras\n- Apresente o tema de forma clara\n- Contextualize a importância jurídica\n- NÃO use subseções ou subtítulos\n- Escreva um texto corrido e fluido\n\nEscreva apenas a introdução, sem títulos ou seções.")
    (fun sec => "Reescreva esta introdução com mais detalhes (200-250 palavras): " ++ sec) 150
  let d := sectionStep llm i.nextCall
    ("Escreva o DESENVOLVIMENTO sobre: " ++ query ++ "\n\nCONTEXTO: " ++ ctx ++
     "\n\nINSTRUÇÕES:\n- Escreva 350-400 palavras\n- Explique os conceitos fundamentais\n- Aborde a fundamentação legal\n- Inclua exemplos práticos\n- NÃO use subseções ou subtítulos\n- Escreva um texto corrido e fluido\n\nEscreva apenas o desenvolvimento, sem títulos ou seções.")
    (fun sec => "Reescreva este desenvolvimento com mais detalhes (350-400 palavras): " ++ sec) 250
  let a := sectionStep llm d.nextCall
    ("Escreva uma ANÁLISE DETALHADA sobre: " ++ query ++ "\n\nCONTEXTO: " ++ ctx ++
     "\n\nINSTRUÇÕES:\n- Escreva 400-450 palavras\n- Analise aspectos práticos e teóricos\n- Discuta implicações e consequências\n- Mencione jurisprudência relevante\n- NÃO use subseções ou subtítulos\n- Escreva um texto corrido e fluido\n\nEscreva apenas a análise, sem títulos ou seções.")
    (fun sec => "Reescreva esta análise com mais detalhes (400-450 palavras): " ++ sec) 300
  let c := sectionStep llm a.nextCall
    ("Escreva uma CONCLUSÃO sobre: " ++ query ++ "\n\nCONTEXTO: " ++ ctx ++
     "\n\nINSTRUÇÕES:\n- Escreva 250-300 palavras\n- Sintetize os pontos principais\n- Forneça orientações práticas\n- Sugira próximos passos\n- NÃO use subseções ou subtítulos\n- Escreva um texto corrido e fluido\n\nEscreva apenas a conclusão, sem títulos ou seções.")
    (fun sec => "Reescreva esta conclusão com mais detalhes (250-300 palavras): " ++ sec) 200
  let run : FourPartsRun :=
    { introduction := i
      development := d
      analysis := a
      conclusion := c
      final_text :=
        "## INTRODUÇÃO\n\n" ++ i.text ++ "\n\n## DESENVOLVIMENTO\n\n" ++ d.text ++
        "\n\n## ANÁLISE DETALHADA\n\n" ++ a.text ++ "\n\n## CONCLUSÃO\n\n" ++ c.text }
  (run,
    ["## INTRODUÇÃO\n\n" ++ i.text ++ "\n\n",
     "## DESENVOLVIMENTO\n\n" ++ d.text ++ "\n\n",
     "## ANÁLISE DETALHADA\n\n" ++ a.text ++ "\n\n",
     "## CONCLUSÃO\n\n" ++ c.text])

/-! ## hybrid_legal_processor.py: final response assembly -/

/-- Disclaimer that `process_legal_query_hybrid_corrected` puts on the final
response (line 1431). -/
def hybridDisclaimer : String :=
  "Esta resposta foi gerada por sistema de IA integrado e está suscetível a erro. Para qualquer conclusão e tomada de descisão procure um advogado credenciado e qualificado."

/-- Error summary of the except branch of
`process_legal_query_hybrid_corrected` (line 1454). -/
def hybridErrorSummary : String :=
  "Desculpe, ocorreu um erro no sistema híbrido durante o processamento da sua consulta jurídica. O sistema OpenRouter + Groq encontrou dificuldades técnicas que impediram a conclusão da análise. Este tipo de erro pode ser temporário e recomendamos tentar novamente em alguns minutos. Se o problema persistir, entre em contato com o suporte técnico para assistência especializada."

/-- Final-response assembly of `process_legal_query_hybrid_corrected`
(lines 1421-1437): the response is built with `status=Status.COMPLETED`, the
validator scores as confidence/completeness, the improvement suggestions as
warnings only when `needs_improvement` is set, and — when the guardrail check
did not pass — the violations appended as additional warnings. -/
def assemble_hybrid_final_response (queryId responseText : String)
    (qa : QualityAssessment) (guard : GuardrailCheck) : Except String FinalResponse :=
  match mkFinalResponse (some queryId) responseText Status.completed
      qa.overall_score qa.completeness
      (if qa.needs_improvement then qa.improvement_suggestions else [])
      hybridDisclaimer with
  | Except.error e => Except.error e
  | Except.ok fr =>
      Except.ok
        (if guard.passed then fr
         else { fr with
                  warnings := fr.warnings ++
                    guard.violations.map (fun v => "Atenção: " ++ v) })

/-- Tail of `process_legal_query_hybrid_corrected`
(lines 1421-1458): the assembled response, or — when any step of the try
block raises, including the final construction itself — the FAILED error
response of the except branch. -/
def process_hybrid_build_response (queryId responseText : String)
    (qa : QualityAssessment) (guard : GuardrailCheck) : Except String FinalResponse :=
  match assemble_hybrid_final_response queryId responseText qa guard with
  | Except.ok fr => Except.ok fr
  | Except.error _ =>
      mkFinalResponse (some queryId) hybridErrorSummary Status.failed 0 0
        ["Falha no sistema híbrido OpenRouter + Groq"]
        "Sistema indisponível. Tente novamente mais tarde."

/-! ## response_synthesizer.py: the synthesize node of the CRAG graph -/

/-- Emergency summary of the except branch of `synthesize_response`
(`src/agents/streaming/response_synthesizer.py`, line 826). -/
def emergencySummary : String :=
  "O sistema encontrou dificuldades técnicas ao processar sua consulta jurídica. Este erro pode estar relacionado à complexidade da consulta ou a problemas temporários de conectividade com os serviços de IA. Tente reformular sua pergunta de forma mais específica ou tente novamente em alguns minutos. Para orientação jurídica imediata, consulte um advogado especializado."

/-- Emergency disclaimer of the except branch of `synthesize_response`
(line 827). -/
def emergencyDisclaimer : String :=
  "Resposta de erro técnico. Este sistema utiliza IA para assistência jurídica, mas não substitui consulta profissional com advogado especializado."

/-- Summary used when the query object is missing from the state (line 769). -/
def noQuerySummary : String :=
  "Erro interno: Query original não encontrada. O sistema não conseguiu processar adequadamente a consulta jurídica solicitada. Este erro indica um problema técnico que deve ser reportado ao suporte para investigação e correção."

/-- Node `synthesize_response` of
`src/agents/streaming/response_synthesizer.py` (lines 760-829).  `query` is
the optional `(id, text)` of the `LegalQuery` in the state; `synthesis` is the
outcome of `synthesize_with_hybrid_corrected_approach`, an
`(overall_summary, disclaimer)` pair or a raised exception.  The try block
encloses both the synthesis call and the `FinalResponse` construction, so a
construction failure also lands in the except branch, which builds the
emergency response. -/
def synthesize_response (query : Option (String × String))
    (synthesis : Except String (String × String)) : Except String FinalResponse :=
  match query with
  | none =>
      mkFinalResponse (some "unknown") noQuerySummary Status.completed 0 0 []
        "Este é um erro técnico do sistema. Para orientação jurídica, consulte um advogado especializado."
  | some q =>
      match synthesis with
      | Except.ok sd =>
          match mkFinalResponse (some q.1) sd.1 Status.completed 0 0 [] sd.2 with
          | Except.ok fr => Except.ok fr
          | Except.error _ =>
              mkFinalResponse (some q.1) emergencySummary Status.completed 0 0 []
                emergencyDisclaimer
      | Except.error _ =>
          mkFinalResponse (some q.1) emergencySummary Status.completed 0 0 []
            emergencyDisclaimer

/-! ## Concrete instances used to evaluate the embedding -/

/-- Synthesizer oracle whose first section draft has 10 words and whose
expansion output has a single word. -/
def llmShortCE : Nat → String :=
  fun k => if k = 0 then "a b c d e f g h i j" else "x"

/-- Synthesizer oracle with a three-word first draft. -/
def sampleLLM : Nat → String :=
  fun k => if k = 0 then "uma frase curta" else "saida expandida com mais palavras"

/-- Example of an overall summary accepted by every summary validator. -/
def sampleValidSummary : String :=
  "Primeira frase do resumo juridico com conteudo suficiente para a validacao completa. Segunda frase adicional garantindo o comprimento minimo da resposta final."

/-- FinalResponse value produced from `sampleValidSummary`. -/
def sampleValidFR : FinalResponse :=
  { query_id := "q-2"
    overall_summary := sampleValidSummary
    overall_confidence := 0
    completeness_score := 0
    warnings := []
    disclaimer := defaultDisclaimer
    status := Status.completed }

/-- Quality assessment with in-range scores and the improvement flag set. -/
def qaSampleNeedsImprovement : QualityAssessment :=
  { overall_score := Rat.divInt 1 2
    completeness := Rat.divInt 1 2
    accuracy := 1
    clarity := 0
    needs_improvement := true
    improvement_suggestions := ["Acrescentar fundamentacao"]
    needs_human_review := true
    review_reason := "confianca baixa" }

/-- Guardrail check that failed with one violation. -/
def guardSampleFailed : GuardrailCheck :=
  { passed := false
    violations := ["Falta disclaimer"]
    overall_risk_level := "alto" }

/-- Retryable error with one retry spent out of three. -/
def retrySampleA : RetryableError :=
  { error_type := "timeout"
    message := "primeira tentativa"
    retry_count := 1
    max_retries := 3
    backoff_factor := 1 }

/-- Retryable error with the same counters as `retrySampleA` and different
text fields. -/
def retrySampleB : RetryableError :=
  { error_type := "network"
    message := "segunda tentativa"
    retry_count := 1
    max_retries := 3
    backoff_factor := 2 }

/-! ## Helper lemmas -/

/-- Facts available whenever `validate_summary_quality` accepts a summary. -/
theorem validate_ok_props (s : String)
    (h : (validate_summary_quality s).isOk = true) :
    2 ≤ (((splitDots s).map pyStrip).filter (fun x => x ≠ "")).length ∧
    50 ≤ pyLen (pyStrip s) ∧
    (10 ≤ (pyWords (pyLower s)).length →
      (pyWords (pyLower s)).length ≤ 4 * (pyWords (pyLower s)).dedup.length) ∧
    validate_summary_quality s = Except.ok s := by
  unfold validate_summary_quality at h
  split_ifs at h with h1 h2 h3 h4
  · simp [Except.isOk, Except.toBool] at h
  · simp [Except.isOk, Except.toBool] at h
  · refine ⟨by omega, by omega, fun h10 => by omega, ?_⟩
    unfold validate_summary_quality
    rw [if_neg h1, if_neg h2, if_pos h3]
  · simp [Except.isOk, Except.toBool] at h
  · refine ⟨by omega, by omega, fun _ => by omega, ?_⟩
    unfold validate_summary_quality
    rw [if_neg h1, if_neg h2, if_neg h3, if_neg h4]

/-- Inversion of a successful `FinalResponse` construction. -/
theorem mkFinalResponse_ok_elim (qid s : String) (st : Status) (oc cs : Rat)
    (w : List String) (d : String) (fr : FinalResponse)
    (h : mkFinalResponse (some qid) s st oc cs w d = Except.ok fr) :
    100 ≤ pyLen s ∧ pyLen s ≤ 15000 ∧ (validate_summary_quality s).isOk = true ∧
    fr = { query_id := qid, overall_summary := s, overall_confidence := oc,
           completeness_score := cs, warnings := w, disclaimer := d, status := st } := by
  simp only [mkFinalResponse] at h
  split_ifs at h with h1 h2 h3 h4
  cases hv : validate_summary_quality s with
    | error e => rw [hv] at h; exact Except.noConfusion h
    | ok v =>
        rw [hv] at h
        injection h with h
        have hvok : (validate_summary_quality s).isOk = true := by rw [hv]; rfl
        have hvs := (validate_ok_props s hvok).2.2.2
        rw [hv] at hvs
        injection hvs with hvs
        refine ⟨by omega, by omega, by rfl, ?_⟩
        rw [← h, hvs]

/-- Introduction rule for a successful `FinalResponse` construction. -/
theorem mkFinalResponse_ok_intro (qid s : String) (st : Status) (oc cs : Rat)
    (w : List String) (d : String)
    (h1 : 100 ≤ pyLen s) (h2 : pyLen s ≤ 15000)
    (h3 : (validate_summary_quality s).isOk = true)
    (h4 : 0 ≤ oc) (h5 : oc ≤ 1) (h6 : 0 ≤ cs) (h7 : cs ≤ 1) :
    mkFinalResponse (some qid) s st oc cs w d =
      Except.ok { query_id := qid, overall_summary := s, overall_confidence := oc,
                  completeness_score := cs, warnings := w, disclaimer := d,
                  status := st } := by
  have hs := (validate_ok_props s h3).2.2.2
  simp only [mkFinalResponse]
  rw [if_neg (by omega), if_neg (by omega),
      if_neg (by simp only [not_or, not_lt]; exact ⟨h4, h5⟩),
      if_neg (by simp only [not_or, not_lt]; exact ⟨h6, h7⟩), hs]

/-! ## Claim theorems -/

/-- C1: the claim states that every terminal state populates a typed
`FinalResponse` — in particular that `handle_error` successfully constructs
one.  The code contradicts this: the `FinalResponse` call in `handle_error`
omits the required `query_id` field (and its summary is a single short
sentence), so pydantic raises a ValidationError for every error message and
the error node never returns a typed response.  The `synthesize_response`
half of the claim does hold: even when synthesis raises, the emergency
response is constructed successfully. -/
theorem handle_error_always_raises :
    (∀ msg : String, (handle_error msg).isOk = false) ∧
    (handle_error "Unknown error" =
      Except.error "query_id: Field required") ∧
    (synthesize_response (some ("q-123", "consulta de teste"))
      (Except.error "falha na sintese")).isOk = true := by
  refine ⟨fun msg => rfl, rfl, by decide⟩

/-- C2: the routing table after grading is followed exactly: grade
`relevant` routes to the LexML (jurisprudence) node, `irrelevant` routes to
the query-transform node (which itself always routes to LexML), and every
other grade — `needs_web_search`, an absent grade, or any unexpected value —
falls back to LexML. -/
theorem crag_routing_table :
    grade_conditional_edges (route_after_grading (some "relevant")) = some NODE_LEXML ∧
    grade_conditional_edges (route_after_grading (some "irrelevant")) = some NODE_TRANSFORM ∧
    transform_conditional_edges route_after_transform = some NODE_LEXML ∧
    (∀ grade : Option String, grade ≠ some "relevant" → grade ≠ some "irrelevant" →
      grade_conditional_edges (route_after_grading grade) = some NODE_LEXML) := by
  refine ⟨by decide, by decide, by decide, ?_⟩
  intro g hg1 hg2
  unfold route_after_grading
  rw [if_neg hg1, if_neg hg2]
  decide

/-- Witness for C2 at the grade `needs_web_search`. -/
theorem crag_routing_table_witness :
    (some "needs_web_search" ≠ some "relevant") ∧
    grade_conditional_edges (route_after_grading (some "needs_web_search")) = some NODE_LEXML :=
  ⟨by decide, crag_routing_table.2.2.2 (some "needs_web_search") (by decide) (by decide)⟩

/-- C3 counterexample: the claim quantifies over every state, but when the
module-level grader agent failed to initialize (`grader_agent is None`) the
agent-unavailable branch runs first and `grade_documents` returns `relevant`
even though `retrieved_docs` is empty. -/
theorem grade_documents_empty_docs_with_missing_agent :
    grade_documents none (some "Quais sao os requisitos legais?") (some []) =
      ("relevant", false) := rfl

/-- C3 (amended): provided the grader agent was constructed, every state with
an absent or empty `retrieved_docs` list obtains grade `irrelevant`, without
raising and without an LLM call. -/
theorem grade_documents_empty_forces_irrelevant
    (agent : String → Except String String) (query : Option String)
    (docs : Option (List GradeDoc)) (h : docs = none ∨ docs = some []) :
    grade_documents (some agent) query docs = ("irrelevant", false) := by
  simp only [grade_documents]
  rw [if_pos (Or.inr h)]

/-- Witness for the amended C3 at a concrete agent and an empty document
list. -/
theorem grade_documents_empty_forces_irrelevant_witness :
    ((some [] : Option (List GradeDoc)) = none ∨
      (some [] : Option (List GradeDoc)) = some []) ∧
    grade_documents (some (fun _ => Except.ok "irrelevant")) (some "consulta") (some []) =
      ("irrelevant", false) :=
  ⟨Or.inr rfl,
    grade_documents_empty_forces_irrelevant (fun _ => Except.ok "irrelevant")
      (some "consulta") (some []) (Or.inr rfl)⟩

/-- C4 counterexample: for the introduction section the first draft has 10
words (below the floor of 200), exactly one expansion call is issued, and the
replacing text — the raw output of the expansion call — has 1 word, so the
replacement is NOT word-count-non-decreasing as the claim states. -/
theorem intro_expansion_output_can_shrink :
    (synthesize_with_openrouter_4_parts llmShortCE "q" "ctx").introduction.expanded = true ∧
    (synthesize_with_openrouter_4_parts llmShortCE "q" "ctx").introduction.nextCall = 2 ∧
    wordCount (synthesize_with_openrouter_4_parts llmShortCE "q" "ctx").introduction.firstDraft = 10 ∧
    wordCount (synthesize_with_openrouter_4_parts llmShortCE "q" "ctx").introduction.text = 1 := by
  decide

/-- C4 (amended): for every section whose stripped first draft falls below
its floor, exactly one expansion call is issued (call indices k and k+1, next
section starts at k+2, never a loop), the short draft is embedded verbatim in
the expansion prompt, and the stripped expansion output replaces the draft
unconditionally — with no word-count guarantee; a draft at or above the
floor triggers no expansion call.  The four sections of
`synthesize_with_openrouter_4_parts` are exactly this step at floors 200,
400, 400 and 250. -/
theorem section_expansion_policy (llm : Nat → String) (k : Nat)
    (prompt pre post : String) (floor : Nat) :
    (sectionStep llm k prompt (fun sec => pre ++ sec ++ post) floor).firstDraft
        = pyStrip (llm k) ∧
    (wordCount (pyStrip (llm k)) < floor →
      sectionStep llm k prompt (fun sec => pre ++ sec ++ post) floor =
        { text := pyStrip (llm (k + 1)), firstDraft := pyStrip (llm k), expanded := true,
          nextCall := k + 2, prompts := [prompt, pre ++ pyStrip (llm k) ++ post] }) ∧
    (floor ≤ wordCount (pyStrip (llm k)) →
      sectionStep llm k prompt (fun sec => pre ++ sec ++ post) floor =
        { text := pyStrip (llm k), firstDraft := pyStrip (llm k), expanded := false,
          nextCall := k + 1, prompts := [prompt] }) ∧
    (∀ q a : String,
      (synthesize_with_openrouter_4_parts llm q a).introduction =
        sectionStep llm 0 (introPrompt q (ctxOrGeneral a)) introExpandPrompt 200 ∧
      (synthesize_with_openrouter_4_parts llm q a).development =
        sectionStep llm ((synthesize_with_openrouter_4_parts llm q a).introduction.nextCall)
          (devPrompt q (ctxOrGeneral a)) devExpandPrompt 400 ∧
      (synthesize_with_openrouter_4_parts llm q a).analysis =
        sectionStep llm ((synthesize_with_openrouter_4_parts llm q a).development.nextCall)
          (analysisPrompt q (ctxOrGeneral a)) analysisExpandPrompt 400 ∧
      (synthesize_with_openrouter_4_parts llm q a).conclusion =
        sectionStep llm ((synthesize_with_openrouter_4_parts llm q a).analysis.nextCall)
          (conclusionPrompt q (ctxOrGeneral a)) conclusionExpandPrompt 250) := by
  refine ⟨?_, ?_, ?_, fun q a => ⟨rfl, rfl, rfl, rfl⟩⟩
  · unfold sectionStep
    split <;> rfl
  · intro hshort
    unfold sectionStep
    rw [if_pos hshort]
  · intro hlong
    unfold sectionStep
    rw [if_neg (by omega)]

/-- Witness for the amended C4: a three-word draft below a floor of 5 issues
exactly one expansion call with the draft embedded verbatim. -/
theorem section_expansion_policy_witness :
    wordCount (pyStrip (sampleLLM 0)) < 5 ∧
    sectionStep sampleLLM 0 "P" (fun sec => "A" ++ sec ++ "B") 5 =
      { text := pyStrip (sampleLLM 1), firstDraft := pyStrip (sampleLLM 0),
        expanded := true, nextCall := 2,
        prompts := ["P", "A" ++ pyStrip (sampleLLM 0) ++ "B"] } :=
  ⟨by decide, (section_expansion_policy sampleLLM 0 "P" "A" "B" 5).2.1 (by decide)⟩

/-- C5: every successfully constructed `FinalResponse` has an
`overall_summary` with at least 2 complete sentences, raw length at least 100
(and stripped length at least 50), and — when it has at least 10 words — a
unique-word ratio of at least 0.25; and constructing one from a single
three-word sentence raises a validation error. -/
theorem final_response_summary_invariant :
    (∀ (qid s : String) (st : Status) (oc cs : Rat) (w : List String) (d : String)
        (fr : FinalResponse),
        mkFinalResponse (some qid) s st oc cs w d = Except.ok fr →
        fr.overall_summary = s ∧
        2 ≤ (((splitDots s).map pyStrip).filter (fun x => x ≠ "")).length ∧
        100 ≤ pyLen s ∧ 50 ≤ pyLen (pyStrip s) ∧
        (10 ≤ (pyWords (pyLower s)).length →
          (pyWords (pyLower s)).length ≤ 4 * (pyWords (pyLower s)).dedup.length)) ∧
    (mkFinalResponse (some "q-1") "Consulta foi analisada." Status.completed 0 0 []
      defaultDisclaimer).isOk = false := by
  constructor
  · intro qid s st oc cs w d fr h
    obtain ⟨hlen1, hlen2, hvok, hfr⟩ := mkFinalResponse_ok_elim qid s st oc cs w d fr h
    obtain ⟨hs2, hs50, hrep, -⟩ := validate_ok_props s hvok
    exact ⟨by rw [hfr], hs2, hlen1, hs50, hrep⟩
  · decide

/-- Witness for C5 at a concrete valid summary. -/
theorem final_response_summary_invariant_witness :
    (mkFinalResponse (some "q-2") sampleValidSummary Status.completed 0 0 []
        defaultDisclaimer = Except.ok sampleValidFR) ∧
    (sampleValidFR.overall_summary = sampleValidSummary ∧
     2 ≤ (((splitDots sampleValidSummary).map pyStrip).filter (fun x => x ≠ "")).length ∧
     100 ≤ pyLen sampleValidSummary ∧ 50 ≤ pyLen (pyStrip sampleValidSummary) ∧
     (10 ≤ (pyWords (pyLower sampleValidSummary)).length →
       (pyWords (pyLower sampleValidSummary)).length ≤
         4 * (pyWords (pyLower sampleValidSummary)).dedup.length)) :=
  ⟨by rfl,
    final_response_summary_invariant.1 "q-2" sampleValidSummary Status.completed 0 0 []
      defaultDisclaimer sampleValidFR (by rfl)⟩

/-- C6: the quality validator and the guardrail checker are advisory: for
every validator assessment (with its mandatory in-range scores) and every
guardrail outcome, the hybrid pipeline constructs the `FinalResponse` with
status `completed`; improvement suggestions become warnings only when flagged
and failed-guardrail violations are appended as warnings — neither ever
flips the status to failed. -/
theorem hybrid_validators_advisory (qid text : String) (qa : QualityAssessment)
    (guard : GuardrailCheck)
    (hr : qaScoresInRange qa = true)
    (h1 : 100 ≤ pyLen text) (h2 : pyLen text ≤ 15000)
    (h3 : (validate_summary_quality text).isOk = true) :
    process_hybrid_build_response qid text qa guard =
      Except.ok { query_id := qid, overall_summary := text,
                  overall_confidence := qa.overall_score,
                  completeness_score := qa.completeness,
                  warnings :=
                    (if qa.needs_improvement then qa.improvement_suggestions else []) ++
                    (if guard.passed then []
                     else guard.violations.map (fun v => "Atenção: " ++ v)),
                  disclaimer := hybridDisclaimer, status := Status.completed } := by
  have hp := of_decide_eq_true hr
  obtain ⟨ho1, ho2, hc1, hc2, -, -, -, -⟩ := hp
  unfold process_hybrid_build_response assemble_hybrid_final_response
  rw [mkFinalResponse_ok_intro qid text Status.completed qa.overall_score qa.completeness
      (if qa.needs_improvement then qa.improvement_suggestions else []) hybridDisclaimer
      h1 h2 h3 ho1 ho2 hc1 hc2]
  cases hg : guard.passed <;> simp [hg]

/-- Witness for C6: a failed guardrail with one violation and a validator
that flags improvement still yield a completed response with both warnings. -/
theorem hybrid_validators_advisory_witness :
    qaScoresInRange qaSampleNeedsImprovement = true ∧
    process_hybrid_build_response "q-3" sampleValidSummary qaSampleNeedsImprovement
        guardSampleFailed =
      Except.ok { query_id := "q-3", overall_summary := sampleValidSummary,
                  overall_confidence := Rat.divInt 1 2,
                  completeness_score := Rat.divInt 1 2,
                  warnings := ["Acrescentar fundamentacao", "Atenção: Falta disclaimer"],
                  disclaimer := hybridDisclaimer, status := Status.completed } := by
  refine ⟨by decide, ?_⟩
  have h := hybrid_validators_advisory "q-3" sampleValidSummary qaSampleNeedsImprovement
    guardSampleFailed (by decide) (by decide) (by decide) (by decide)
  exact h

/-- C7 counterexample: when the validator call succeeds but its output has no
parsable labelled line, `validate_with_openrouter` keeps the pre-parse field
defaults (overall 0.8), not the 0.75 safe default that the claim states for
unparsable output. -/
theorem validator_unparsable_keeps_field_defaults :
    validate_with_openrouter (Except.ok "resultado sem rotulos") ≠ qaErrorDefault ∧
    (validate_with_openrouter (Except.ok "resultado sem rotulos")).overall_score =
      Rat.divInt 4 5 ∧
    qaErrorDefault.overall_score = Rat.divInt 3 4 := by
  refine ⟨by decide, by decide, rfl⟩

/-- C7 (amended): when the validator LLM call raises — or a parsed score
falls outside [0,1], so that constructing the assessment raises inside the
try block — `validate_with_openrouter` returns the safe default (overall
0.75, `needs_improvement = false`, `needs_human_review = false`); when the
call succeeds and the parsed scores are in range it returns the parsed
assessment (whose missing fields keep the 0.8 defaults).  In every case it
returns an assessment instead of raising, so completion is never blocked. -/
theorem validate_with_openrouter_safe_defaults :
    (∀ msg : String, validate_with_openrouter (Except.error msg) = qaErrorDefault) ∧
    qaErrorDefault.overall_score = Rat.divInt 3 4 ∧
    qaErrorDefault.needs_improvement = false ∧
    qaErrorDefault.needs_human_review = false ∧
    (∀ text : String, qaScoresInRange (qaParse text) = false →
      validate_with_openrouter (Except.ok text) = qaErrorDefault) ∧
    (∀ text : String, validate_with_openrouter (Except.ok text) = qaParse text ∨
      validate_with_openrouter (Except.ok text) = qaErrorDefault) := by
  refine ⟨fun msg => rfl, rfl, rfl, rfl, ?_, ?_⟩
  · intro text h
    simp [validate_with_openrouter, h]
  · intro text
    by_cases h : qaScoresInRange (qaParse text) = true
    · left; simp [validate_with_openrouter, h]
    · right; simp [validate_with_openrouter, h]

/-- Witness for the amended C7: an out-of-range parsed score lands in the
safe-default branch. -/
theorem validate_with_openrouter_safe_defaults_witness :
    qaScoresInRange (qaParse "SCORE_GERAL: 2") = false ∧
    validate_with_openrouter (Except.ok "SCORE_GERAL: 2") = qaErrorDefault :=
  ⟨by decide,
    validate_with_openrouter_safe_defaults.2.2.2.2.1 "SCORE_GERAL: 2" (by decide)⟩

/-- C8: the Groq tool-executing search call is wrapped in an explicit hard
timeout of 10 seconds, and when the timeout expires `execute_groq_searches`
returns the placeholder result — timeout summaries and a nonzero default
source count — instead of propagating the timeout, so the pipeline proceeds
to synthesis. -/
theorem groq_search_timeout_fallback :
    groqSearchTimeoutSeconds = 10 ∧
    execute_groq_searches GroqCallOutcome.timeout =
      { web_results_summary := "Timeout na busca web",
        lexml_results_summary := "Timeout na busca LexML",
        total_sources := 10,
        summary := "Buscas Groq com timeout - usando fallback" } ∧
    (execute_groq_searches GroqCallOutcome.timeout).total_sources ≠ 0 := by
  refine ⟨rfl, rfl, by decide⟩

/-- C9: when the grader agent failed to initialize at import time
(`grader_agent is None`), `grade_documents` returns `relevant` for every
state — including states with an empty `retrieved_docs` list — because the
agent-unavailable check precedes the empty-documents check, and no LLM call
is made. -/
theorem grader_agent_missing_defaults_relevant (query : Option String)
    (docs : Option (List GradeDoc)) :
    grade_documents none query docs = ("relevant", false) := rfl

/-- C10: `can_retry` holds exactly when `retry_count < max_retries`, and —
the model being frozen — it is a function of those two construction-time
fields alone: two values with equal counters always agree on `can_retry`. -/
theorem retryable_can_retry_iff (e : RetryableError) :
    (e.can_retry = true ↔ e.retry_count < e.max_retries) ∧
    (∀ e2 : RetryableError, e.retry_count = e2.retry_count →
      e.max_retries = e2.max_retries → e.can_retry = e2.can_retry) := by
  constructor
  · simp [RetryableError.can_retry]
  · intro e2 ha hb
    simp [RetryableError.can_retry, ha, hb]

/-- Witness for C10 at two concrete errors with equal counters. -/
theorem retryable_can_retry_iff_witness :
    (retrySampleA.can_retry = true ↔ retrySampleA.retry_count < retrySampleA.max_retries) ∧
    retrySampleA.can_retry = retrySampleB.can_retry :=
  ⟨(retryable_can_retry_iff retrySampleA).1,
    (retryable_can_retry_iff retrySampleA).2 retrySampleB rfl rfl⟩

end Researcher
